import Mathlib

/-!
Shallow embedding of the OAuth 2.0 authorization-code-with-PKCE client in
src/src/user.ts (jacobbednarz/wrangler2).

Modelling conventions:
- JavaScript string-or-undefined values become Option String; JavaScript
  truthiness on such a value (present and nonempty) is the function truthy.
- Times are integer milliseconds since the epoch, the value carried by a
  JavaScript Date.  The source stores an access-token expiry as an ISO
  string produced by Date.toISOString and parses it back with new Date;
  the ISO serialization is a bijection on valid dates, so the expiry field
  is modelled directly as the underlying millisecond timestamp.
- The mutable module-level LocalState becomes an explicit State value
  threaded through each operation.
- JavaScript exceptions become the error side of Except.  The distinct
  thrown shapes that occur in the source are the ErrorOAuth2 class values,
  the raw parsed JSON body (thrown by the refresh path on status >= 400),
  the JSON parse failure raised by response.json(), and the RangeError
  raised by Date.toISOString on an invalid date.
- The network is a boundary: each exchange operation takes the HTTP
  response it would have received as an argument, and the request body it
  sends is modelled by a separate function where a claim depends on it.
- crypto.getRandomValues is a boundary: functions that draw randomness
  take the drawn words as a List Nat argument.  crypto.subtle.digest
  (SHA-256) is a boundary: it is passed as a function argument.
-/

/-- Scope is a TypeScript string-union in the source, but the cast
applied to the parsed token response (scope.split as Scope[]) performs no
validation, so at runtime a scope is an arbitrary string. -/
abbrev Scope := String

/-- PKCECodes, from the interface of the same name. -/
structure PKCECodes where
  codeChallenge : String
  codeVerifier : String
  deriving DecidableEq

/-- RefreshToken, from the interface of the same name. -/
structure RefreshToken where
  value : String
  deriving DecidableEq

/-- AccessToken, from the interface of the same name.  The value field is
Option String because the source builds it from the unvalidated
access_token field of the parsed response, which may be absent; expiry is
the millisecond timestamp serialized by toISOString in the source. -/
structure AccessToken where
  value : Option String
  expiry : Int
  deriving DecidableEq

/-- State, from the interface of the same name (the shape of the mutable
LocalState singleton).  Every field is optional exactly as in the source. -/
structure State where
  accessToken : Option AccessToken := none
  authorizationCode : Option String := none
  codeChallenge : Option String := none
  codeVerifier : Option String := none
  hasAuthCodeBeenExchangedForAccessToken : Option Bool := none
  refreshToken : Option RefreshToken := none
  stateQueryParam : Option String := none
  scopes : Option (List Scope) := none
  deriving DecidableEq

/-- AccessContext, from the interface of the same name.  The source always
populates all three fields when it constructs one (token from the freshly
built access token, scopes from the local scopes array, refreshToken from
LocalState.refreshToken which may be undefined). -/
structure AccessContext where
  token : AccessToken
  scopes : List Scope
  refreshToken : Option RefreshToken
  deriving DecidableEq

/-- The shape of a parsed token-endpoint JSON body.  The source casts the
parsed value without validation, so every field may be absent. -/
structure TokenBody where
  error : Option String := none
  access_token : Option String := none
  expires_in : Option Int := none
  refresh_token : Option String := none
  scope : Option String := none
  deriving DecidableEq

/-- An HTTP response from the token endpoint: its status code and its body
as parsed by response.json(), with none meaning the body is not valid JSON
(response.json() throws). -/
structure HttpResponse where
  status : Nat
  body : Option TokenBody
  deriving DecidableEq

/-- The query parameters of a callback request, as produced by
url.parse(req.url, true): each parameter is a string or absent. -/
structure CallbackQuery where
  error : Option String := none
  code : Option String := none
  state : Option String := none
  deriving DecidableEq

/-- The ErrorOAuth2 class hierarchy of the source, flattened to a tagged
union of its leaf classes. -/
inductive OAuthError where
  | ErrorUnknown
  | ErrorNoAuthCode
  | ErrorInvalidReturnedStateParam
  | ErrorInvalidJson
  | ErrorInvalidScope
  | ErrorInvalidRequest
  | ErrorInvalidToken
  | ErrorUnauthorizedClient
  | ErrorAccessDenied
  | ErrorUnsupportedResponseType
  | ErrorServerError
  | ErrorTemporarilyUnavailable
  | ErrorInvalidClient
  | ErrorInvalidGrant
  | ErrorUnsupportedGrantType
  deriving DecidableEq

/-- toErrorClass: the RawErrorToErrorClassMap lookup with ErrorUnknown as
the fallback for unrecognized raw error strings. -/
def toErrorClass (rawError : String) : OAuthError :=
  if rawError = "invalid_request" then .ErrorInvalidRequest
  else if rawError = "invalid_grant" then .ErrorInvalidGrant
  else if rawError = "unauthorized_client" then .ErrorUnauthorizedClient
  else if rawError = "access_denied" then .ErrorAccessDenied
  else if rawError = "unsupported_response_type" then .ErrorUnsupportedResponseType
  else if rawError = "invalid_scope" then .ErrorInvalidScope
  else if rawError = "server_error" then .ErrorServerError
  else if rawError = "temporarily_unavailable" then .ErrorTemporarilyUnavailable
  else if rawError = "invalid_client" then .ErrorInvalidClient
  else if rawError = "unsupported_grant_type" then .ErrorUnsupportedGrantType
  else if rawError = "invalid_json" then .ErrorInvalidJson
  else if rawError = "invalid_token" then .ErrorInvalidToken
  else .ErrorUnknown

/-- toErrorClass applied to a possibly-absent error field: in the source,
indexing RawErrorToErrorClassMap with undefined yields undefined, so the
fallback ErrorUnknown is constructed. -/
def toErrorClassOpt (rawError : Option String) : OAuthError :=
  match rawError with
  | some s => toErrorClass s
  | none => .ErrorUnknown

/-- The thrown values that occur in the embedded fragment of the source:
classified ErrorOAuth2 values; the raw parsed JSON body that the refresh
path throws on status >= 400; the parse failure raised by response.json()
on a non-JSON body; the RangeError raised by toISOString on an invalid
date. -/
inductive JsError where
  | oauth (e : OAuthError)
  | rawBody (b : TokenBody)
  | jsonParseFailure
  | rangeError
  deriving DecidableEq

def CLIENT_ID : String := "54d11594-84e4-41aa-b438-e81b8fa78ee7"

def AUTH_URL : String := "https://dash.cloudflare.com/oauth2/auth"

def TOKEN_URL : String := "https://dash.cloudflare.com/oauth2/token"

def CALLBACK_URL : String := "http://localhost:8976/oauth/callback"

def REVOKE_URL : String := "https://dash.cloudflare.com/oauth2/revoke"

def RECOMMENDED_CODE_VERIFIER_LENGTH : Nat := 96

def RECOMMENDED_STATE_LENGTH : Nat := 32

/-- PKCE_CHARSET, the 66-character unreserved charset of the source. -/
def PKCE_CHARSET : String :=
  "ABCDEFGHIJKLMNOPQRSTUVWXYZabcdefghijklmnopqrstuvwxyz0123456789-._~"

/-- The message substituted by the refresh-path catch block when the
caught value has no error field. -/
def NETWORK_ERROR_MESSAGE : String := "There was a network error."

/-- JavaScript truthiness of an optional string value: present and
nonempty. -/
def truthy : Option String → Bool
  | none => false
  | some s => decide (s ≠ "")

/-- Model of the JavaScript call s.split with a single-space separator,
as applied to the scope field: split at every space character, keeping
empty pieces. -/
def splitCharsOnSpace : List Char → List String
  | [] => [""]
  | c :: rest =>
    let r := splitCharsOnSpace rest
    if c = ' ' then "" :: r
    else
      match r with
      | [] => [String.singleton c]
      | h :: t => (String.singleton c ++ h) :: t

def splitScopeString (s : String) : List String :=
  splitCharsOnSpace s.data

/-- The base64 alphabet, indices 0 to 63. -/
def B64_CHARSET : String :=
  "ABCDEFGHIJKLMNOPQRSTUVWXYZabcdefghijklmnopqrstuvwxyz0123456789+/"

def b64char (n : Nat) : Char := B64_CHARSET.data.getD (n % 64) 'A'

/-- RFC 4648 base64 of a byte list, with padding: the encoding performed
by the btoa builtin that the source uses. -/
def b64encodeBytes : List Nat → List Char
  | [] => []
  | [a] => [b64char (a / 4), b64char (a % 4 * 16), '=', '=']
  | [a, b] => [b64char (a / 4), b64char (a % 4 * 16 + b / 16), b64char (b % 16 * 4), '=']
  | a :: b :: c :: rest =>
    b64char (a / 4) :: b64char (a % 4 * 16 + b / 16) ::
      b64char (b % 16 * 4 + c / 64) :: b64char (c % 64) :: b64encodeBytes rest

/-- btoa on a latin1 string: each char code, at most 255 at every call
site in the source, is one byte. -/
def btoa (value : String) : String :=
  String.mk (b64encodeBytes (value.data.map Char.toNat))

/-- base64urlEncode of the source: btoa, then the three sequential regex
replacements turning plus into minus, slash into underscore, and deleting
the padding. -/
def base64urlEncode (value : String) : String :=
  String.mk ((((btoa value).data.map
      (fun ch => if ch = '+' then '-' else ch)).map
      (fun ch => if ch = '/' then '_' else ch)).filter
      (fun ch => ch ≠ '='))

/-- One random word mapped into the charset, as in the source expression
indexing PKCE_CHARSET at num modulo its length. -/
def pkceChar (num : Nat) : Char :=
  PKCE_CHARSET.data.getD (num % PKCE_CHARSET.length) 'A'

/-- Model of the loop building a binary string from the SHA-256 digest
bytes with String.fromCharCode. -/
def bytesToString (l : List Nat) : String :=
  String.mk (l.map Char.ofNat)

/-- Model of new TextEncoder().encode: the UTF-8 bytes of the string. -/
def textEncode (s : String) : List Nat :=
  s.toUTF8.toList.map (fun b => b.toNat)

/-- generateRandomState: the drawn random words (a Uint32Array of the
requested length in the source) each mapped through the charset. -/
def generateRandomState (randomValues : List Nat) : String :=
  String.mk (randomValues.map pkceChar)

/-- generatePKCECodes: 96 random words mapped through the charset, the
result base64url-encoded to form the verifier; the challenge is the
base64url encoding of the SHA-256 digest of the verifier bytes.  The
random words and the digest function are boundary inputs. -/
def generatePKCECodes (randomValues : List Nat) (sha256 : List Nat → List Nat) : PKCECodes :=
  let codeVerifier := base64urlEncode (String.mk (randomValues.map pkceChar))
  let codeChallenge := base64urlEncode (bytesToString (sha256 (textEncode codeVerifier)))
  { codeChallenge := codeChallenge, codeVerifier := codeVerifier }

/-- Characters that encodeURIComponent leaves unescaped. -/
def isUriUnescaped (ch : Char) : Bool :=
  (decide ('A' ≤ ch) && decide (ch ≤ 'Z')) ||
  (decide ('a' ≤ ch) && decide (ch ≤ 'z')) ||
  (decide ('0' ≤ ch) && decide (ch ≤ '9')) ||
  ch = '-' || ch = '_' || ch = '.' || ch = '!' || ch = '~' || ch = '*' ||
  decide (ch.toNat = 39) || ch = '(' || ch = ')'

def hexUpperDigit (n : Nat) : Char := "0123456789ABCDEF".data.getD n '0'

def percentEncodeByte (b : Nat) : List Char :=
  ['%', hexUpperDigit (b / 16 % 16), hexUpperDigit (b % 16)]

/-- encodeURIComponent: unreserved characters pass through, every other
character is replaced by the percent-encoding of its UTF-8 bytes. -/
def encodeURIComponent (s : String) : String :=
  String.mk ((s.data.map (fun ch =>
    if isUriUnescaped ch then [ch]
    else ((String.singleton ch).toUTF8.toList.map
      (fun b => percentEncodeByte b.toNat)).flatten)).flatten)

/-- The Scopes constant of the source (offline_access is appended when the
URL is built). -/
def SCOPE_LIST : List String :=
  ["account:read", "user:read", "workers:write", "workers_kv:write",
   "workers_routes:write", "workers_scripts:write", "workers_tail:read",
   "zone:read"]

/-- getAuthURL: generates PKCE codes and a state parameter, stores all
three into the session state (Object.assign on LocalState), and renders
the authorization URL.  The random words for the verifier and for the
state, and the digest function, are boundary inputs. -/
def getAuthURL (st : State) (pkceRandomValues : List Nat)
    (sha256 : List Nat → List Nat) (stateRandomValues : List Nat) : String × State :=
  let codes := generatePKCECodes pkceRandomValues sha256
  let stateQueryParam := generateRandomState stateRandomValues
  (AUTH_URL ++ "?response_type=code&" ++
     "client_id=" ++ encodeURIComponent CLIENT_ID ++ "&" ++
     "redirect_uri=" ++ encodeURIComponent CALLBACK_URL ++ "&" ++
     "scope=" ++ encodeURIComponent (String.intercalate " " (SCOPE_LIST ++ ["offline_access"])) ++ "&" ++
     "state=" ++ stateQueryParam ++ "&" ++
     "code_challenge=" ++ encodeURIComponent codes.codeChallenge ++ "&" ++
     "code_challenge_method=S256",
   { st with codeChallenge := some codes.codeChallenge,
             codeVerifier := some codes.codeVerifier,
             stateQueryParam := some stateQueryParam })

/-- isReturningFromAuthServer: throws the classified error when the error
parameter is truthy; returns false when the code parameter is not truthy;
throws ErrorInvalidReturnedStateParam when the state parameter differs
from the stored one (strict equality on string-or-undefined); otherwise
stores the code, clears the exchanged flag, and returns true.  The
returned State is the LocalState after the call. -/
def isReturningFromAuthServer (st : State) (q : CallbackQuery) :
    Except JsError Bool × State :=
  if truthy q.error then
    (.error (.oauth (toErrorClass (q.error.getD ""))), st)
  else if !truthy q.code then
    (.ok false, st)
  else if q.state ≠ st.stateQueryParam then
    (.error (.oauth .ErrorInvalidReturnedStateParam), st)
  else
    (.ok true, { st with authorizationCode := q.code,
                         hasAuthCodeBeenExchangedForAccessToken := some false })

/-- The oauth callback branch of the request handler in the source, up to
(but not including) the token-exchange network call: any error thrown by
isReturningFromAuthServer is caught and only logged; when the call
returns true and the query code equals the (just stored) authorization
code, exchangeAuthCodeForAccessToken is invoked.  The result is the
session state when the handler reaches the exchange decision, paired with
the authorization code an exchange is triggered for (none when no
exchange happens). -/
def callbackHandler (st : State) (q : CallbackQuery) : State × Option String :=
  match isReturningFromAuthServer st q with
  | (.error _, st1) => (st1, none)
  | (.ok false, st1) => (st1, none)
  | (.ok true, st1) =>
    if q.code = st1.authorizationCode then (st1, st1.authorizationCode)
    else (st1, none)

/-- Model of new Date(now + expires_in * 1000).toISOString(): when
expires_in is absent the arithmetic yields NaN, the Date is invalid and
toISOString throws a RangeError; a finite time beyond the maximal
JavaScript date range likewise makes the Date invalid; otherwise the
resulting timestamp is returned. -/
def computeExpiryTime (now : Int) (expiresIn : Option Int) : Except JsError Int :=
  match expiresIn with
  | none => .error .rangeError
  | some n =>
    if (now + n * 1000).natAbs ≤ 8640000000000000 then .ok (now + n * 1000)
    else .error .rangeError

/-- The token-storing block shared by both exchange paths: store the new
access token; store the refresh token only when the response carries a
truthy refresh_token; store the scopes only when the response carries a
truthy scope, splitting it at spaces. -/
def applyTokenResponse (st : State) (b : TokenBody) (expiry : Int) : State :=
  let st1 := { st with accessToken := some { value := b.access_token, expiry := expiry } }
  let st2 :=
    if truthy b.refresh_token then
      { st1 with refreshToken := some { value := b.refresh_token.getD "" } }
    else st1
  if truthy b.scope then
    { st2 with scopes := some (splitScopeString (b.scope.getD "")) }
  else st2

/-- The scopes local variable of the exchange paths: empty unless the
response carries a truthy scope field. -/
def responseScopes (b : TokenBody) : List Scope :=
  if truthy b.scope then splitScopeString (b.scope.getD "") else []

/-- The AccessContext built at the end of a successful exchange: the new
token, the local scopes value, and the refresh token read back from the
session state after the updates. -/
def responseContext (st : State) (b : TokenBody) (expiry : Int) : AccessContext :=
  { token := { value := b.access_token, expiry := expiry },
    scopes := responseScopes b,
    refreshToken := (applyTokenResponse st b expiry).refreshToken }

/-- exchangeAuthCodeForAccessToken, from the POST response onward.  The
source checks response.ok (status 200 to 299); on a non-ok response it
parses the body (a parse failure propagates raw) and throws the
classified error field; on an ok response it parses the body (a parse
failure propagates raw), sets the exchanged flag, computes the expiry
(which throws a RangeError when expires_in is absent, after the flag was
already set), then applies the token updates and returns the context. -/
def exchangeAuthCodeForAccessToken (st : State) (now : Int) (resp : HttpResponse) :
    Except JsError AccessContext × State :=
  if 200 ≤ resp.status ∧ resp.status < 300 then
    match resp.body with
    | none => (.error .jsonParseFailure, st)
    | some b =>
      match computeExpiryTime now b.expires_in with
      | .error e =>
        (.error e, { st with hasAuthCodeBeenExchangedForAccessToken := some true })
      | .ok expiry =>
        (.ok (responseContext { st with hasAuthCodeBeenExchangedForAccessToken := some true } b expiry),
         applyTokenResponse { st with hasAuthCodeBeenExchangedForAccessToken := some true } b expiry)
  else
    match resp.body with
    | none => (.error .jsonParseFailure, st)
    | some b => (.error (.oauth (toErrorClassOpt b.error)), st)

/-- The request body built by exchangeRefreshTokenForAccessToken before
the network call: the template literal interpolates the optional chain
refreshToken value, which renders as the literal text undefined when no
refresh token is stored.  The source only warns in that case and sends
the request regardless. -/
def refreshTokenRequestBody (st : State) : String :=
  "grant_type=refresh_token&" ++
  "refresh_token=" ++ (match st.refreshToken with
                       | some r => r.value
                       | none => "undefined") ++ "&" ++
  "client_id=" ++ CLIENT_ID

/-- exchangeRefreshTokenForAccessToken, from the POST response onward.
On status 400 or above, the source throws the parsed body itself (raw,
unclassified; a parse failure propagates raw).  Otherwise the parsing and
state updates run inside a try block whose catch rebuilds an error from
the error field of the caught value, falling back to the network-error
message: both a parse failure and the RangeError from a missing
expires_in carry no error field, so both are classified ErrorUnknown.
The exchanged flag is never touched on this path. -/
def exchangeRefreshTokenForAccessToken (st : State) (now : Int) (resp : HttpResponse) :
    Except JsError AccessContext × State :=
  if 400 ≤ resp.status then
    match resp.body with
    | none => (.error .jsonParseFailure, st)
    | some b => (.error (.rawBody b), st)
  else
    match resp.body with
    | none => (.error (.oauth (toErrorClass NETWORK_ERROR_MESSAGE)), st)
    | some b =>
      match computeExpiryTime now b.expires_in with
      | .error _ => (.error (.oauth (toErrorClass NETWORK_ERROR_MESSAGE)), st)
      | .ok expiry => (.ok (responseContext st b expiry), applyTokenResponse st b expiry)

/-- isAccessTokenExpired: Boolean(accessToken and now at or past the
stored expiry); absence of a token yields false. -/
def isAccessTokenExpired (st : State) (now : Int) : Bool :=
  match st.accessToken with
  | none => false
  | some t => decide (t.expiry ≤ now)

/-! Helper lemmas. -/

theorem list_getD_mem_or {α : Type} (l : List α) (i : Nat) (d : α) :
    l.getD i d ∈ l ∨ l.getD i d = d := by
  induction l generalizing i with
  | nil => exact Or.inr (by simp)
  | cons x xs ih =>
    cases i with
    | zero => exact Or.inl (by simp)
    | succ n =>
      rw [List.getD_cons_succ]
      rcases ih n with h | h
      · exact Or.inl (List.mem_cons_of_mem _ h)
      · exact Or.inr h

theorem b64char_ne_pad (n : Nat) : b64char n ≠ '=' := by
  unfold b64char
  rcases list_getD_mem_or B64_CHARSET.data (n % 64) 'A' with h | h
  · intro he
    rw [he] at h
    revert h
    decide
  · rw [h]
    decide

theorem b64encodeBytes_spec : ∀ l : List Nat, l.length % 3 = 0 →
    (b64encodeBytes l).length = l.length / 3 * 4 ∧ '=' ∉ b64encodeBytes l
  | [], _ => ⟨rfl, by simp [b64encodeBytes]⟩
  | [a], h => absurd h (by simp)
  | [a, b], h => absurd h (by simp)
  | a :: b :: c :: rest, h => by
    have hr : rest.length % 3 = 0 := by
      simp only [List.length_cons] at h
      omega
    obtain ⟨h1, h2⟩ := b64encodeBytes_spec rest hr
    refine ⟨?_, ?_⟩
    · simp only [b64encodeBytes, List.length_cons, h1]
      omega
    · simp only [b64encodeBytes, List.mem_cons, not_or]
      exact ⟨fun he => b64char_ne_pad _ he.symm, fun he => b64char_ne_pad _ he.symm,
             fun he => b64char_ne_pad _ he.symm, fun he => b64char_ne_pad _ he.symm, h2⟩

theorem base64urlEncode_chars (value : String) :
    ∀ ch ∈ (base64urlEncode value).data, ch ≠ '+' ∧ ch ≠ '/' ∧ ch ≠ '=' := by
  intro ch hch
  simp only [base64urlEncode, String.data] at hch
  rw [List.mem_filter] at hch
  obtain ⟨hmem, hpred⟩ := hch
  rw [List.mem_map] at hmem
  obtain ⟨y, hy, hchy⟩ := hmem
  rw [List.mem_map] at hy
  obtain ⟨z, _, hyz⟩ := hy
  refine ⟨?_, ?_, by simpa using hpred⟩
  · intro he
    rw [he] at hchy
    split at hchy
    · exact absurd hchy (by decide)
    · subst hchy
      split at hyz
      · exact absurd hyz (by decide)
      · exact absurd hyz (by assumption)
  · intro he
    rw [he] at hchy
    split at hchy
    · exact absurd hchy (by decide)
    · exact absurd hchy (by assumption)

theorem map_preserves_no_pad (l : List Char) (h : '=' ∉ l) :
    '=' ∉ ((l.map (fun ch => if ch = '+' then '-' else ch)).map
      (fun ch => if ch = '/' then '_' else ch)) := by
  intro hmem
  rw [List.mem_map] at hmem
  obtain ⟨y, hy, hchy⟩ := hmem
  rw [List.mem_map] at hy
  obtain ⟨z, hz, hyz⟩ := hy
  subst hyz
  split at hchy
  · exact absurd hchy (by decide)
  · split at hchy
    · exact absurd hchy (by decide)
    · exact h (hchy ▸ hz)

theorem filter_ne_pad_length (l : List Char) (h : '=' ∉ l) :
    (l.filter (fun ch => ch ≠ '=')).length = l.length := by
  have heq : l.filter (fun ch => ch ≠ '=') = l := by
    apply List.filter_eq_self.mpr
    intro a ha
    simp only [ne_eq, decide_eq_true_eq]
    intro he
    exact h (he ▸ ha)
  rw [heq]

theorem base64urlEncode_length (value : String) (h : value.length % 3 = 0) :
    (base64urlEncode value).length = value.length / 3 * 4 := by
  obtain ⟨h1, h2⟩ := b64encodeBytes_spec (value.data.map Char.toNat)
    (by rw [List.length_map]; exact h)
  have hno : '=' ∉ (btoa value).data := fun hmem => h2 hmem
  have hno2 := map_preserves_no_pad ((btoa value).data) hno
  have key : (base64urlEncode value).length =
      ((((btoa value).data.map (fun ch => if ch = '+' then '-' else ch)).map
        (fun ch => if ch = '/' then '_' else ch)).filter (fun ch => ch ≠ '=')).length := rfl
  rw [key, filter_ne_pad_length _ hno2, List.length_map, List.length_map]
  have hb : (btoa value).data = b64encodeBytes (value.data.map Char.toNat) := rfl
  rw [hb, h1, List.length_map]
  rfl

/-! Claim theorems. -/

/-- C8: every PKCE pair generated from 96 random words has a codeVerifier
whose length lies between 43 and 128 characters, a codeChallenge equal to
the base64url encoding (no padding) of the SHA-256 digest of the
verifier, and neither string contains a plus, slash or equals
character. -/
theorem c8_pkce_codes_wellformed (randomValues : List Nat) (sha256 : List Nat → List Nat)
    (hlen : randomValues.length = RECOMMENDED_CODE_VERIFIER_LENGTH) :
    (43 ≤ (generatePKCECodes randomValues sha256).codeVerifier.length ∧
      (generatePKCECodes randomValues sha256).codeVerifier.length ≤ 128) ∧
    (generatePKCECodes randomValues sha256).codeChallenge =
      base64urlEncode (bytesToString (sha256 (textEncode
        (generatePKCECodes randomValues sha256).codeVerifier))) ∧
    (∀ ch ∈ (generatePKCECodes randomValues sha256).codeVerifier.data,
      ch ≠ '+' ∧ ch ≠ '/' ∧ ch ≠ '=') ∧
    (∀ ch ∈ (generatePKCECodes randomValues sha256).codeChallenge.data,
      ch ≠ '+' ∧ ch ≠ '/' ∧ ch ≠ '=') := by
  have hv : (generatePKCECodes randomValues sha256).codeVerifier =
      base64urlEncode (String.mk (randomValues.map pkceChar)) := rfl
  have hc : (generatePKCECodes randomValues sha256).codeChallenge =
      base64urlEncode (bytesToString (sha256 (textEncode
        (base64urlEncode (String.mk (randomValues.map pkceChar)))))) := rfl
  have hlen96 : (String.mk (randomValues.map pkceChar)).length = 96 := by
    show (randomValues.map pkceChar).length = 96
    rw [List.length_map, hlen]
    rfl
  have hvl : (generatePKCECodes randomValues sha256).codeVerifier.length = 128 := by
    rw [hv, base64urlEncode_length _ (by rw [hlen96]), hlen96]
  refine ⟨⟨?_, ?_⟩, rfl, ?_, ?_⟩
  · rw [hvl]
    norm_num
  · rw [hvl]
  · rw [hv]
    exact base64urlEncode_chars _
  · rw [hc]
    exact base64urlEncode_chars _

theorem c8_pkce_codes_wellformed_witness :
    (43 ≤ (generatePKCECodes (List.replicate 96 0) (fun _ => List.replicate 32 0)).codeVerifier.length ∧
      (generatePKCECodes (List.replicate 96 0) (fun _ => List.replicate 32 0)).codeVerifier.length ≤ 128) ∧
    (generatePKCECodes (List.replicate 96 0) (fun _ => List.replicate 32 0)).codeChallenge =
      base64urlEncode (bytesToString ((fun _ => List.replicate 32 0) (textEncode
        (generatePKCECodes (List.replicate 96 0) (fun _ => List.replicate 32 0)).codeVerifier))) ∧
    (∀ ch ∈ (generatePKCECodes (List.replicate 96 0) (fun _ => List.replicate 32 0)).codeVerifier.data,
      ch ≠ '+' ∧ ch ≠ '/' ∧ ch ≠ '=') ∧
    (∀ ch ∈ (generatePKCECodes (List.replicate 96 0) (fun _ => List.replicate 32 0)).codeChallenge.data,
      ch ≠ '+' ∧ ch ≠ '/' ∧ ch ≠ '=') :=
  c8_pkce_codes_wellformed (List.replicate 96 0) (fun _ => List.replicate 32 0) rfl

/-- C10: isAccessTokenExpired is true exactly when an access token is
stored and the current time is at or past its stored expiry; in
particular it is false with no stored token, true with a past expiry and
false with a future expiry. -/
theorem c10_is_expired_iff (st : State) (now : Int) :
    (isAccessTokenExpired st now = true ↔
      ∃ t, st.accessToken = some t ∧ t.expiry ≤ now) ∧
    (st.accessToken = none → isAccessTokenExpired st now = false) ∧
    (∀ t, st.accessToken = some t → t.expiry ≤ now → isAccessTokenExpired st now = true) ∧
    (∀ t, st.accessToken = some t → now < t.expiry → isAccessTokenExpired st now = false) := by
  rcases hst : st.accessToken with _ | t
  · refine ⟨?_, fun _ => ?_, fun t ht => ?_, fun t ht => ?_⟩
    · simp [isAccessTokenExpired, hst]
    · simp [isAccessTokenExpired, hst]
    · cases ht
    · cases ht
  · refine ⟨?_, fun hn => ?_, fun u hu hle => ?_, fun u hu hlt => ?_⟩
    · simp [isAccessTokenExpired, hst]
    · cases hn
    · injection hu with hu
      subst hu
      simp [isAccessTokenExpired, hst, hle]
    · injection hu with hu
      subst hu
      simp [isAccessTokenExpired, hst]
      omega

theorem c10_is_expired_iff_witness :
    (isAccessTokenExpired { accessToken := none } 50 = false) ∧
    (isAccessTokenExpired { accessToken := some { value := some "T", expiry := 10 } } 50 = true) ∧
    (isAccessTokenExpired { accessToken := some { value := some "T", expiry := 90 } } 50 = false) :=
  ⟨(c10_is_expired_iff { accessToken := none } 50).2.1 rfl,
   (c10_is_expired_iff { accessToken := some { value := some "T", expiry := 10 } } 50).2.2.1
     { value := some "T", expiry := 10 } rfl (by decide),
   (c10_is_expired_iff { accessToken := some { value := some "T", expiry := 90 } } 50).2.2.2
     { value := some "T", expiry := 90 } rfl (by decide)⟩

/-- C5: the callback checks run in strict priority order: a truthy error
parameter access_denied always yields ErrorAccessDenied regardless of the
other parameters, and with no error parameter an absent code parameter
yields the non-fatal false result with the session state unchanged. -/
theorem c5_callback_check_priority :
    (∀ (st : State) (q : CallbackQuery), q.error = some "access_denied" →
      isReturningFromAuthServer st q = (.error (.oauth .ErrorAccessDenied), st)) ∧
    (∀ (st : State) (q : CallbackQuery), truthy q.error = false → q.code = none →
      isReturningFromAuthServer st q = (.ok false, st)) := by
  constructor
  · intro st q hq
    obtain ⟨qe, qc, qs⟩ := q
    have hq2 : qe = some "access_denied" := hq
    subst hq2
    rfl
  · intro st q herr hcode
    obtain ⟨qe, qc, qs⟩ := q
    have hc2 : qc = none := hcode
    subst hc2
    have he2 : truthy qe = false := herr
    simp only [isReturningFromAuthServer, he2]
    simp [truthy]

theorem c5_callback_check_priority_witness :
    (isReturningFromAuthServer {}
        { error := some "access_denied", code := some "c", state := some "s" } =
      (.error (.oauth .ErrorAccessDenied), {})) ∧
    (isReturningFromAuthServer {} {} = (.ok false, {})) :=
  ⟨c5_callback_check_priority.1 {} _ rfl,
   c5_callback_check_priority.2 {} {} rfl rfl⟩

/-- C7: a callback query with a truthy code but no state parameter is
rejected as a state mismatch whenever a csrf state is stored, and the
absent state parameter passes the comparison exactly when no state was
ever stored. -/
theorem c7_absent_state_mismatch (st : State) (q : CallbackQuery)
    (herr : truthy q.error = false) (hcode : truthy q.code = true)
    (hstate : q.state = none) :
    (∀ s, st.stateQueryParam = some s →
      isReturningFromAuthServer st q = (.error (.oauth .ErrorInvalidReturnedStateParam), st)) ∧
    ((isReturningFromAuthServer st q).1 = .ok true ↔ st.stateQueryParam = none) := by
  constructor
  · intro s hs
    simp [isReturningFromAuthServer, herr, hcode, hstate, hs]
  · rcases hsq : st.stateQueryParam with _ | s
    · simp [isReturningFromAuthServer, herr, hcode, hstate, hsq]
    · simp [isReturningFromAuthServer, herr, hcode, hstate, hsq]

theorem c7_absent_state_mismatch_witness :
    (isReturningFromAuthServer { stateQueryParam := some "xyz" } { code := some "abc123" } =
      (.error (.oauth .ErrorInvalidReturnedStateParam), { stateQueryParam := some "xyz" })) ∧
    ((isReturningFromAuthServer {} { code := some "abc123" }).1 = .ok true) :=
  ⟨(c7_absent_state_mismatch { stateQueryParam := some "xyz" } { code := some "abc123" }
      rfl (by decide) rfl).1 "xyz" rfl,
   (c7_absent_state_mismatch {} { code := some "abc123" } rfl (by decide) rfl).2.mpr rfl⟩

/-- C6: after getAuthURL stores a fresh state parameter, a callback query
carrying a nonempty code and exactly the stored state value is accepted
(the code is stored, the exchanged flag is cleared), while any other
state value makes the callback fail with ErrorInvalidReturnedStateParam
and leaves the state unchanged (the code is not stored). -/
theorem c6_auth_url_state_roundtrip (st : State) (pkceRandomValues : List Nat)
    (sha256 : List Nat → List Nat) (stateRandomValues : List Nat)
    (c : String) (hc : c ≠ "") :
    (isReturningFromAuthServer (getAuthURL st pkceRandomValues sha256 stateRandomValues).2
        { error := none, code := some c,
          state := some (generateRandomState stateRandomValues) } =
      (.ok true,
       { (getAuthURL st pkceRandomValues sha256 stateRandomValues).2 with
           authorizationCode := some c,
           hasAuthCodeBeenExchangedForAccessToken := some false })) ∧
    (∀ other : Option String, other ≠ some (generateRandomState stateRandomValues) →
      isReturningFromAuthServer (getAuthURL st pkceRandomValues sha256 stateRandomValues).2
          { error := none, code := some c, state := other } =
        (.error (.oauth .ErrorInvalidReturnedStateParam),
         (getAuthURL st pkceRandomValues sha256 stateRandomValues).2)) := by
  have hsq : (getAuthURL st pkceRandomValues sha256 stateRandomValues).2.stateQueryParam =
      some (generateRandomState stateRandomValues) := rfl
  constructor
  · simp [isReturningFromAuthServer, truthy, hc, hsq]
  · intro other hother
    simp [isReturningFromAuthServer, truthy, hc, hsq, hother]

theorem c6_auth_url_state_roundtrip_witness :
    (isReturningFromAuthServer (getAuthURL {} [] (fun _ => []) []).2
        { error := none, code := some "abc", state := some (generateRandomState []) } =
      (.ok true,
       { (getAuthURL {} [] (fun _ => []) []).2 with
           authorizationCode := some "abc",
           hasAuthCodeBeenExchangedForAccessToken := some false })) ∧
    (isReturningFromAuthServer (getAuthURL {} [] (fun _ => []) []).2
        { error := none, code := some "abc", state := some "zzz" } =
      (.error (.oauth .ErrorInvalidReturnedStateParam), (getAuthURL {} [] (fun _ => []) []).2)) :=
  ⟨(c6_auth_url_state_roundtrip {} [] (fun _ => []) [] "abc" (by decide)).1,
   (c6_auth_url_state_roundtrip {} [] (fun _ => []) [] "abc" (by decide)).2
     (some "zzz") (by decide)⟩

/-- C1 counterexample: with a first code c1 already accepted (and
exchanged) under stored state s, a second callback carrying the different
code c2 and the same state s is not a no-op: the stored authorization
code becomes c2, the exchanged flag is reset to false, and a token
exchange of c2 is triggered. -/
theorem c1_second_callback_counterexample :
    ((callbackHandler
        { stateQueryParam := some "s", authorizationCode := some "c1",
          hasAuthCodeBeenExchangedForAccessToken := some true }
        { error := none, code := some "c2", state := some "s" }).1.authorizationCode =
      some "c2") ∧
    ((callbackHandler
        { stateQueryParam := some "s", authorizationCode := some "c1",
          hasAuthCodeBeenExchangedForAccessToken := some true }
        { error := none, code := some "c2", state := some "s" }).1.hasAuthCodeBeenExchangedForAccessToken =
      some false) ∧
    ((callbackHandler
        { stateQueryParam := some "s", authorizationCode := some "c1",
          hasAuthCodeBeenExchangedForAccessToken := some true }
        { error := none, code := some "c2", state := some "s" }).2 = some "c2") ∧
    (some "c2" ≠ some "c1") := by
  decide

/-- C1 (amended): a subsequent callback carrying a nonempty code
different from the stored one and the currently stored state value is
accepted exactly like a first callback: it overwrites the stored
authorization code, resets the exchanged flag to false, and triggers a
token exchange of the new code. -/
theorem c1_duplicate_callback_accepts_new_code (st : State) (s c2 : String)
    (hs : st.stateQueryParam = some s) (hdiff : st.authorizationCode ≠ some c2)
    (hc2 : c2 ≠ "") :
    callbackHandler st { error := none, code := some c2, state := some s } =
      ({ st with authorizationCode := some c2,
                 hasAuthCodeBeenExchangedForAccessToken := some false }, some c2) := by
  have hret : isReturningFromAuthServer st { error := none, code := some c2, state := some s } =
      (.ok true, { st with authorizationCode := some c2,
                           hasAuthCodeBeenExchangedForAccessToken := some false }) := by
    simp [isReturningFromAuthServer, truthy, hc2, hs]
  simp [callbackHandler, hret]

theorem c1_duplicate_callback_accepts_new_code_witness :
    callbackHandler
        { stateQueryParam := some "s", authorizationCode := some "c1",
          hasAuthCodeBeenExchangedForAccessToken := some true }
        { error := none, code := some "c2", state := some "s" } =
      ({ stateQueryParam := some "s", authorizationCode := some "c2",
         hasAuthCodeBeenExchangedForAccessToken := some false }, some "c2") :=
  c1_duplicate_callback_accepts_new_code
    { stateQueryParam := some "s", authorizationCode := some "c1",
      hasAuthCodeBeenExchangedForAccessToken := some true }
    "s" "c2" rfl (by decide) (by decide)

/-- C4 counterexample: with no stored refresh token the operation does
not fail before the network call: the request body is still built, with
the literal text undefined interpolated for the missing token, and a
success response is then processed normally, so the whole exchange can
even succeed. -/
theorem c4_request_sent_counterexample :
    (({} : State).refreshToken = none) ∧
    (refreshTokenRequestBody {} =
      "grant_type=refresh_token&refresh_token=undefined&client_id=54d11594-84e4-41aa-b438-e81b8fa78ee7") ∧
    ((exchangeRefreshTokenForAccessToken {} 0
        ⟨200, some { access_token := some "T", expires_in := some 3600 }⟩).1 =
      .ok { token := { value := some "T", expiry := 3600000 },
            scopes := [], refreshToken := none }) := by
  refine ⟨rfl, by decide, rfl⟩

/-- C1 and C4 differ. C4 (amended): when no refresh token is stored,
exchangeRefreshTokenForAccessToken only logs a warning and proceeds: the
request body it sends interpolates the literal text undefined for the
missing token, no error is raised before the network call, and the
outcome is determined by the response alone (a success response makes the
whole operation succeed). -/
theorem c4_missing_refresh_token_proceeds (st : State) (h : st.refreshToken = none) :
    (refreshTokenRequestBody st =
      "grant_type=refresh_token&" ++ "refresh_token=" ++ "undefined" ++ "&" ++
      "client_id=" ++ CLIENT_ID) ∧
    ((exchangeRefreshTokenForAccessToken st 0
        ⟨200, some { access_token := some "T", expires_in := some 3600 }⟩).1 =
      .ok { token := { value := some "T", expiry := 3600000 },
            scopes := [], refreshToken := none }) := by
  constructor
  · simp [refreshTokenRequestBody, h]
  · have hexp : computeExpiryTime 0 (some 3600) = .ok 3600000 := rfl
    simp [exchangeRefreshTokenForAccessToken, hexp, responseContext, applyTokenResponse,
          responseScopes, truthy, h]

theorem c4_missing_refresh_token_proceeds_witness :
    (refreshTokenRequestBody {} =
      "grant_type=refresh_token&" ++ "refresh_token=" ++ "undefined" ++ "&" ++
      "client_id=" ++ CLIENT_ID) ∧
    ((exchangeRefreshTokenForAccessToken {} 0
        ⟨200, some { access_token := some "T", expires_in := some 3600 }⟩).1 =
      .ok { token := { value := some "T", expiry := 3600000 },
            scopes := [], refreshToken := none }) :=
  c4_missing_refresh_token_proceeds {} rfl

/-- C2 counterexample: a success-status response whose body is the error
shape (so expires_in is absent) makes exchangeAuthCodeForAccessToken fail
with the RangeError, but only after the exchanged flag was set to true,
so the session state is not left exactly as it was before the call. -/
theorem c2_flag_write_counterexample :
    ((exchangeAuthCodeForAccessToken {} 0
        ⟨200, some { error := some "invalid_grant" }⟩).1 = .error .rangeError) ∧
    ((exchangeAuthCodeForAccessToken {} 0
        ⟨200, some { error := some "invalid_grant" }⟩).2 =
      { hasAuthCodeBeenExchangedForAccessToken := some true }) ∧
    (({ hasAuthCodeBeenExchangedForAccessToken := some true } : State) ≠ ({} : State)) := by
  refine ⟨rfl, rfl, by decide⟩

/-- C2 (amended): every failing run of either exchange leaves
accessToken, refreshToken, scopes, authorizationCode, stateQueryParam,
codeVerifier and codeChallenge unchanged, and every failing refresh run
leaves the whole session state unchanged; a non-success response with
body error invalid_grant makes exchangeAuthCodeForAccessToken fail with
ErrorInvalidGrant and leaves the whole state unchanged.  The exception to
full preservation is the exchanged flag of the auth-code path, set before
the expiry computation can throw (see the counterexample). -/
theorem c2_failing_exchange_preserves_tokens :
    (∀ (st : State) (now : Int) (resp : HttpResponse) (e : JsError),
      (exchangeAuthCodeForAccessToken st now resp).1 = .error e →
        ((exchangeAuthCodeForAccessToken st now resp).2.accessToken = st.accessToken ∧
         (exchangeAuthCodeForAccessToken st now resp).2.refreshToken = st.refreshToken ∧
         (exchangeAuthCodeForAccessToken st now resp).2.scopes = st.scopes ∧
         (exchangeAuthCodeForAccessToken st now resp).2.authorizationCode = st.authorizationCode ∧
         (exchangeAuthCodeForAccessToken st now resp).2.stateQueryParam = st.stateQueryParam ∧
         (exchangeAuthCodeForAccessToken st now resp).2.codeVerifier = st.codeVerifier ∧
         (exchangeAuthCodeForAccessToken st now resp).2.codeChallenge = st.codeChallenge)) ∧
    (∀ (st : State) (now : Int) (resp : HttpResponse) (e : JsError),
      (exchangeRefreshTokenForAccessToken st now resp).1 = .error e →
        (exchangeRefreshTokenForAccessToken st now resp).2 = st) ∧
    (∀ (st : State) (now : Int) (b : TokenBody), b.error = some "invalid_grant" →
      exchangeAuthCodeForAccessToken st now ⟨400, some b⟩ =
        (.error (.oauth .ErrorInvalidGrant), st)) := by
  refine ⟨?_, ?_, ?_⟩
  · intro st now resp e h
    rcases resp with ⟨status, body⟩
    by_cases hok : 200 ≤ status ∧ status < 300
    · rcases body with _ | b
      · simp [exchangeAuthCodeForAccessToken, hok]
      · rcases hexp : computeExpiryTime now b.expires_in with e2 | t
        · simp [exchangeAuthCodeForAccessToken, hok, hexp]
        · exfalso
          simp [exchangeAuthCodeForAccessToken, hok, hexp] at h
    · rcases body with _ | b <;> simp [exchangeAuthCodeForAccessToken, hok]
  · intro st now resp e h
    rcases resp with ⟨status, body⟩
    by_cases hge : 400 ≤ status
    · rcases body with _ | b <;> simp [exchangeRefreshTokenForAccessToken, hge]
    · rcases body with _ | b
      · simp [exchangeRefreshTokenForAccessToken, hge]
      · rcases hexp : computeExpiryTime now b.expires_in with e2 | t
        · simp [exchangeRefreshTokenForAccessToken, hge, hexp]
        · exfalso
          simp [exchangeRefreshTokenForAccessToken, hge, hexp] at h
  · intro st now b hb
    simp [exchangeAuthCodeForAccessToken, toErrorClassOpt, hb, toErrorClass]

theorem c2_failing_exchange_preserves_tokens_witness :
    ((exchangeAuthCodeForAccessToken {} 0 ⟨400, none⟩).2.accessToken = ({} : State).accessToken ∧
     (exchangeAuthCodeForAccessToken {} 0 ⟨400, none⟩).2.refreshToken = ({} : State).refreshToken ∧
     (exchangeAuthCodeForAccessToken {} 0 ⟨400, none⟩).2.scopes = ({} : State).scopes ∧
     (exchangeAuthCodeForAccessToken {} 0 ⟨400, none⟩).2.authorizationCode = ({} : State).authorizationCode ∧
     (exchangeAuthCodeForAccessToken {} 0 ⟨400, none⟩).2.stateQueryParam = ({} : State).stateQueryParam ∧
     (exchangeAuthCodeForAccessToken {} 0 ⟨400, none⟩).2.codeVerifier = ({} : State).codeVerifier ∧
     (exchangeAuthCodeForAccessToken {} 0 ⟨400, none⟩).2.codeChallenge = ({} : State).codeChallenge) ∧
    ((exchangeRefreshTokenForAccessToken {} 0 ⟨400, none⟩).2 = ({} : State)) ∧
    (exchangeAuthCodeForAccessToken {} 0 ⟨400, some { error := some "invalid_grant" }⟩ =
      (.error (.oauth .ErrorInvalidGrant), ({} : State))) :=
  ⟨c2_failing_exchange_preserves_tokens.1 {} 0 ⟨400, none⟩ .jsonParseFailure rfl,
   c2_failing_exchange_preserves_tokens.2.1 {} 0 ⟨400, none⟩ .jsonParseFailure rfl,
   c2_failing_exchange_preserves_tokens.2.2 {} 0 { error := some "invalid_grant" } rfl⟩

/-- C3 counterexample: on a non-success status with the parseable body
error invalid_grant, the refresh exchange throws the raw parsed body, not
the classified error that the claim requires; so the two operations do
not handle a non-success status identically. -/
theorem c3_raw_body_counterexample :
    (exchangeRefreshTokenForAccessToken {} 0
        ⟨400, some { error := some "invalid_grant" }⟩ =
      (.error (.rawBody { error := some "invalid_grant" }), {})) ∧
    (JsError.rawBody { error := some "invalid_grant" } ≠
      JsError.oauth (toErrorClass "invalid_grant")) := by
  refine ⟨rfl, by decide⟩

/-- C3 (amended): only exchangeAuthCodeForAccessToken classifies the
error field of a parseable non-success body; an unparseable body makes it
fail with the raw JSON parse failure (not ErrorInvalidJson) at any
status; the refresh exchange on status at least 400 throws the raw
parsed body (or the raw parse failure when unparseable), and below 400 an
unparseable body is caught and classified ErrorUnknown; a success-status
error-shaped body (no expires_in) makes the auth-code exchange fail with
the RangeError after setting the exchanged flag. -/
theorem c3_error_response_paths :
    (∀ (st : State) (now : Int) (b : TokenBody) (status : Nat),
        ¬(200 ≤ status ∧ status < 300) →
      exchangeAuthCodeForAccessToken st now ⟨status, some b⟩ =
        (.error (.oauth (toErrorClassOpt b.error)), st)) ∧
    (∀ (st : State) (now : Int) (status : Nat),
      exchangeAuthCodeForAccessToken st now ⟨status, none⟩ =
        (.error .jsonParseFailure, st)) ∧
    (∀ (st : State) (now : Int) (b : TokenBody) (status : Nat), 400 ≤ status →
      exchangeRefreshTokenForAccessToken st now ⟨status, some b⟩ =
        (.error (.rawBody b), st)) ∧
    (∀ (st : State) (now : Int) (status : Nat), 400 ≤ status →
      exchangeRefreshTokenForAccessToken st now ⟨status, none⟩ =
        (.error .jsonParseFailure, st)) ∧
    (∀ (st : State) (now : Int) (status : Nat), status < 400 →
      exchangeRefreshTokenForAccessToken st now ⟨status, none⟩ =
        (.error (.oauth .ErrorUnknown), st)) ∧
    (∀ (st : State) (now : Int) (b : TokenBody) (status : Nat),
        200 ≤ status → status < 300 → b.expires_in = none →
      exchangeAuthCodeForAccessToken st now ⟨status, some b⟩ =
        (.error .rangeError,
         { st with hasAuthCodeBeenExchangedForAccessToken := some true })) := by
  refine ⟨?_, ?_, ?_, ?_, ?_, ?_⟩
  · intro st now b status hok
    simp [exchangeAuthCodeForAccessToken, hok]
  · intro st now status
    by_cases hok : 200 ≤ status ∧ status < 300 <;>
      simp [exchangeAuthCodeForAccessToken, hok]
  · intro st now b status hge
    simp [exchangeRefreshTokenForAccessToken, hge]
  · intro st now status hge
    simp [exchangeRefreshTokenForAccessToken, hge]
  · intro st now status hlt
    have hge : ¬ 400 ≤ status := by omega
    simp [exchangeRefreshTokenForAccessToken, hge, NETWORK_ERROR_MESSAGE, toErrorClass]
  · intro st now b status h1 h2 hexp
    simp [exchangeAuthCodeForAccessToken, h1, h2, computeExpiryTime, hexp]

theorem c3_error_response_paths_witness :
    (exchangeAuthCodeForAccessToken {} 0 ⟨400, some { error := some "invalid_scope" }⟩ =
      (.error (.oauth (toErrorClassOpt (some "invalid_scope"))), ({} : State))) ∧
    (exchangeAuthCodeForAccessToken {} 0 ⟨200, none⟩ = (.error .jsonParseFailure, ({} : State))) ∧
    (exchangeRefreshTokenForAccessToken {} 0 ⟨400, some { error := some "invalid_scope" }⟩ =
      (.error (.rawBody { error := some "invalid_scope" }), ({} : State))) ∧
    (exchangeRefreshTokenForAccessToken {} 0 ⟨400, none⟩ =
      (.error .jsonParseFailure, ({} : State))) ∧
    (exchangeRefreshTokenForAccessToken {} 0 ⟨200, none⟩ =
      (.error (.oauth .ErrorUnknown), ({} : State))) ∧
    (exchangeAuthCodeForAccessToken {} 0 ⟨200, some { error := some "invalid_scope" }⟩ =
      (.error .rangeError,
       ({ hasAuthCodeBeenExchangedForAccessToken := some true } : State))) :=
  ⟨c3_error_response_paths.1 {} 0 { error := some "invalid_scope" } 400 (by omega),
   c3_error_response_paths.2.1 {} 0 200,
   c3_error_response_paths.2.2.1 {} 0 { error := some "invalid_scope" } 400 (by omega),
   c3_error_response_paths.2.2.2.1 {} 0 400 (by omega),
   c3_error_response_paths.2.2.2.2.1 {} 0 200 (by omega),
   c3_error_response_paths.2.2.2.2.2 {} 0 { error := some "invalid_scope" } 200
     (by omega) (by omega) rfl⟩

/-- C9: a successful token response with access_token T, expires_in 3600,
refresh_token R and scope account:read workers:write received at time t0
yields, from either exchange, an AccessContext whose token expires at t0
plus 3600 seconds, whose refresh token is R and whose scopes are the two
split scope strings; and when the response carries no refresh_token
field, the previously stored refresh token is retained. -/
theorem c9_success_response_access_context (st : State) (t0 : Int)
    (hrange : (t0 + 3600 * 1000).natAbs ≤ 8640000000000000) :
    ((exchangeAuthCodeForAccessToken st t0
        ⟨200, some { access_token := some "T", expires_in := some 3600,
                     refresh_token := some "R",
                     scope := some "account:read workers:write" }⟩).1 =
      .ok { token := { value := some "T", expiry := t0 + 3600 * 1000 },
            scopes := ["account:read", "workers:write"],
            refreshToken := some { value := "R" } }) ∧
    ((exchangeRefreshTokenForAccessToken st t0
        ⟨200, some { access_token := some "T", expires_in := some 3600,
                     refresh_token := some "R",
                     scope := some "account:read workers:write" }⟩).1 =
      .ok { token := { value := some "T", expiry := t0 + 3600 * 1000 },
            scopes := ["account:read", "workers:write"],
            refreshToken := some { value := "R" } }) ∧
    ((exchangeAuthCodeForAccessToken st t0
        ⟨200, some { access_token := some "T", expires_in := some 3600 }⟩).1 =
      .ok { token := { value := some "T", expiry := t0 + 3600 * 1000 },
            scopes := [],
            refreshToken := st.refreshToken }) ∧
    ((exchangeAuthCodeForAccessToken st t0
        ⟨200, some { access_token := some "T", expires_in := some 3600 }⟩).2.refreshToken =
      st.refreshToken) ∧
    ((exchangeRefreshTokenForAccessToken st t0
        ⟨200, some { access_token := some "T", expires_in := some 3600 }⟩).2.refreshToken =
      st.refreshToken) := by
  have hexp : computeExpiryTime t0 (some 3600) = .ok (t0 + 3600 * 1000) := by
    show (if (t0 + 3600 * 1000).natAbs ≤ 8640000000000000
        then Except.ok (t0 + 3600 * 1000) else Except.error JsError.rangeError) =
      Except.ok (t0 + 3600 * 1000)
    rw [if_pos hrange]
  have hsplit : splitScopeString "account:read workers:write" =
      ["account:read", "workers:write"] := by decide
  refine ⟨?_, ?_, ?_, ?_, ?_⟩ <;>
    simp [exchangeAuthCodeForAccessToken, exchangeRefreshTokenForAccessToken, hexp,
          responseContext, applyTokenResponse, responseScopes, truthy, hsplit]

theorem c9_success_response_access_context_witness :
    ((exchangeAuthCodeForAccessToken {} 0
        ⟨200, some { access_token := some "T", expires_in := some 3600,
                     refresh_token := some "R",
                     scope := some "account:read workers:write" }⟩).1 =
      .ok { token := { value := some "T", expiry := 0 + 3600 * 1000 },
            scopes := ["account:read", "workers:write"],
            refreshToken := some { value := "R" } }) ∧
    ((exchangeRefreshTokenForAccessToken {} 0
        ⟨200, some { access_token := some "T", expires_in := some 3600,
                     refresh_token := some "R",
                     scope := some "account:read workers:write" }⟩).1 =
      .ok { token := { value := some "T", expiry := 0 + 3600 * 1000 },
            scopes := ["account:read", "workers:write"],
            refreshToken := some { value := "R" } }) ∧
    ((exchangeAuthCodeForAccessToken {} 0
        ⟨200, some { access_token := some "T", expires_in := some 3600 }⟩).1 =
      .ok { token := { value := some "T", expiry := 0 + 3600 * 1000 },
            scopes := [],
            refreshToken := ({} : State).refreshToken }) ∧
    ((exchangeAuthCodeForAccessToken {} 0
        ⟨200, some { access_token := some "T", expires_in := some 3600 }⟩).2.refreshToken =
      ({} : State).refreshToken) ∧
    ((exchangeRefreshTokenForAccessToken {} 0
        ⟨200, some { access_token := some "T", expires_in := some 3600 }⟩).2.refreshToken =
      ({} : State).refreshToken) :=
  c9_success_response_access_context {} 0 (by decide)
